import Mathlib

/-!
Shallow embedding of the scoring / batch-workflow core of the
AI-harassment-detector repository (React/TypeScript front end).

Numbers that the TypeScript code treats as JS floats are modelled as
rationals (ℚ); a JS `NaN` arising from `0 / 0` is modelled explicitly as
`Option.none` where it matters.  JS strings are modelled as `List Char`
(so that all string operations are structural and kernel-evaluable).
-/

/-- Risk tiers, from `calculateOverallRisk` in `src/unnamed/part_003`
(`'low' | 'medium' | 'high' | 'critical'`). -/
inductive RiskLevel where
  | low
  | medium
  | high
  | critical
deriving DecidableEq, Repr

/-- Result record of `calculateOverallRisk`: `{ score, level }`. -/
structure RiskResult where
  score : ℚ
  level : RiskLevel
deriving DecidableEq, Repr

/-- Embedding of `calculateOverallRisk(harassmentScore, misogynyScore)`
from `src/unnamed/part_003` lines 88–98:
`combined = Math.max(h, m)`, then the ordered `< 0.3 / < 0.6 / < 0.8`
threshold chain with `critical` as the fall-through. -/
def calculateOverallRisk (harassmentScore misogynyScore : ℚ) : RiskResult :=
  let combined := max harassmentScore misogynyScore
  if combined < 3/10 then ⟨combined, RiskLevel.low⟩
  else if combined < 6/10 then ⟨combined, RiskLevel.medium⟩
  else if combined < 8/10 then ⟨combined, RiskLevel.high⟩
  else ⟨combined, RiskLevel.critical⟩

/-- C1: for every pair of harassment and misogyny confidence scores
(h, m) in [0,1]², the combined toxicity score produced by
`calculateOverallRisk` equals `max h m`. -/
theorem combined_score_is_max (h m : ℚ) (hh0 : 0 ≤ h) (hh1 : h ≤ 1)
    (hm0 : 0 ≤ m) (hm1 : m ≤ 1) :
    (calculateOverallRisk h m).score = max h m := by
  simp only [calculateOverallRisk]
  split_ifs <;> rfl

/-- Witness for C1 at the concrete pair (1/2, 3/4). -/
theorem combined_score_is_max_witness :
    (calculateOverallRisk (1/2) (3/4)).score = max (1/2 : ℚ) (3/4) :=
  combined_score_is_max (1/2) (3/4) (by norm_num) (by norm_num)
    (by norm_num) (by norm_num)

/-- C2: for every combined score in [0,1], the risk level returned by
`calculateOverallRisk` follows the ordered threshold table exactly
(low iff < 0.3, medium iff in [0.3, 0.6), high iff in [0.6, 0.8),
critical iff ≥ 0.8); in particular each score gets exactly one tier,
and the eight boundary probes 0, 0.29, 0.3, 0.59, 0.6, 0.79, 0.8, 1
land in the tiers the table prescribes. -/
theorem risk_tier_table (c : ℚ) (hc0 : 0 ≤ c) (hc1 : c ≤ 1) :
    ((calculateOverallRisk c c).level = RiskLevel.low ↔ c < 3/10) ∧
    ((calculateOverallRisk c c).level = RiskLevel.medium ↔ 3/10 ≤ c ∧ c < 6/10) ∧
    ((calculateOverallRisk c c).level = RiskLevel.high ↔ 6/10 ≤ c ∧ c < 8/10) ∧
    ((calculateOverallRisk c c).level = RiskLevel.critical ↔ 8/10 ≤ c) ∧
    (calculateOverallRisk 0 0).level = RiskLevel.low ∧
    (calculateOverallRisk (29/100) (29/100)).level = RiskLevel.low ∧
    (calculateOverallRisk (3/10) (3/10)).level = RiskLevel.medium ∧
    (calculateOverallRisk (59/100) (59/100)).level = RiskLevel.medium ∧
    (calculateOverallRisk (6/10) (6/10)).level = RiskLevel.high ∧
    (calculateOverallRisk (79/100) (79/100)).level = RiskLevel.high ∧
    (calculateOverallRisk (8/10) (8/10)).level = RiskLevel.critical ∧
    (calculateOverallRisk 1 1).level = RiskLevel.critical := by
  have hx : ∀ x : ℚ, (calculateOverallRisk x x).level =
      if x < 3/10 then RiskLevel.low else if x < 6/10 then RiskLevel.medium
      else if x < 8/10 then RiskLevel.high else RiskLevel.critical := by
    intro x
    simp only [calculateOverallRisk, max_self]
    split_ifs <;> rfl
  refine ⟨?_, ?_, ?_, ?_, ?_, ?_, ?_, ?_, ?_, ?_, ?_, ?_⟩ <;> rw [hx] <;>
    split_ifs with h1 h2 h3 <;> (try simp) <;>
      first
        | rfl
        | linarith
        | (constructor <;> linarith)
        | (intro h4; linarith)

/-- Witness for C2 at the concrete combined score 0.3 (maps to medium). -/
theorem risk_tier_table_witness :
    (calculateOverallRisk (3/10) (3/10)).level = RiskLevel.medium :=
  (risk_tier_table (3/10) (by norm_num) (by norm_num)).2.2.2.2.2.2.1

/-- Whitespace trimming as JS `String.prototype.trim`: strip leading and
trailing whitespace.  JS strings are modelled as `List Char`. -/
def jsTrim (s : List Char) : List Char :=
  ((s.dropWhile Char.isWhitespace).reverse.dropWhile Char.isWhitespace).reverse

/-- Return record of `validateTextInput`: `{ isValid, error? }`. -/
structure ValidationResult where
  isValid : Bool
  error : Option String
deriving DecidableEq, Repr

/-- Embedding of `validateTextInput(text, maxLength = 500)` from
`src/unnamed/part_003` lines 72–85: empty-after-trim fails first, then the
(untrimmed) length is compared against `maxLength`, otherwise valid. -/
def validateTextInput (text : List Char) (maxLength : ℕ) : ValidationResult :=
  if jsTrim text = [] then
    ⟨false, some "Text cannot be empty"⟩
  else if text.length > maxLength then
    ⟨false, some ("Text must be " ++ toString maxLength ++ " characters or less")⟩
  else
    ⟨true, none⟩

/-- Observable actions of the single-text front-end handler: either the
inference request to `POST /api/analyze` or setting the error banner. -/
inductive FrontendAction where
  | inferenceCall (body : List Char)
  | setErrorMsg (msg : String)
deriving DecidableEq, Repr

/-- Embedding of `handleAnalyze` from
`src/frontend/src/components/TextAnalysisDemo.tsx` lines 27–42: it runs
`validateTextInput(text)` first and only on success issues the API call
with the trimmed text; on failure it sets the validation error (with the
fallback message) and returns without calling the API. -/
def handleAnalyze (text : List Char) : List FrontendAction :=
  if (validateTextInput text 500).isValid then
    [FrontendAction.inferenceCall (jsTrim text)]
  else
    [FrontendAction.setErrorMsg ((validateTextInput text 500).error.getD "Invalid input")]

/-- C4: `validateTextInput` accepts a text iff it is non-empty after
trimming and its length is at most the configured maximum, otherwise it
fails with an error; and in `handleAnalyze` an inference call is issued
only when that validation passed (failed validation produces exactly an
error action and no inference call). -/
theorem validate_before_inference (text : List Char) (maxLength : ℕ) :
    ((validateTextInput text maxLength).isValid = true ↔
      jsTrim text ≠ [] ∧ text.length ≤ maxLength) ∧
    ((validateTextInput text maxLength).isValid = false →
      ∃ msg, (validateTextInput text maxLength).error = some msg) ∧
    (∀ b, FrontendAction.inferenceCall b ∈ handleAnalyze text →
      (validateTextInput text 500).isValid = true) ∧
    ((validateTextInput text 500).isValid = false →
      (∀ b, FrontendAction.inferenceCall b ∉ handleAnalyze text) ∧
      ∃ msg, handleAnalyze text = [FrontendAction.setErrorMsg msg]) := by
  refine ⟨?_, ?_, ?_, ?_⟩
  · unfold validateTextInput
    split_ifs with a b
    · simp [a]
    · simp [a]; omega
    · simp [a]; omega
  · unfold validateTextInput
    split_ifs <;> simp
  · intro b hb
    by_cases hv : (validateTextInput text 500).isValid
    · exact hv
    · simp [handleAnalyze, hv] at hb
  · intro hv
    constructor
    · intro b
      simp [handleAnalyze, hv]
    · refine ⟨(validateTextInput text 500).error.getD "Invalid input", ?_⟩
      simp [handleAnalyze, hv]

/-- Witness for C4 at the concrete text "hi" (valid, so the handler issues
exactly the inference call). -/
theorem validate_before_inference_witness :
    (validateTextInput ['h', 'i'] 500).isValid = true :=
  (validate_before_inference ['h', 'i'] 500).1.mpr (by decide)

/-- Raw simulated scores of `analyzeText` in
`src/frontend/src/components/HarassmentDetectionDemo.tsx` (the values of
`simulatedResult` before clamping). -/
structure SimScores where
  harassment_score : ℚ
  misogyny_score : ℚ
  toxicity_score : ℚ
deriving DecidableEq, Repr

/-- The `result` record stored in a `PlatformResult` by `analyzeText`. -/
structure PlatformVerdict where
  harassment_score : ℚ
  misogyny_score : ℚ
  toxicity_score : ℚ
  is_harassment : Bool
  is_toxic : Bool
deriving DecidableEq, Repr

/-- One entry of the `results` list of `HarassmentDetectionDemo`. -/
structure PlatformResult where
  platform : String
  text : List Char
  result : PlatformVerdict
  isFlagged : Bool
deriving DecidableEq, Repr

/-- Shared decision threshold of `analyzeText`
(`const threshold = 0.7`). -/
def demoThreshold : ℚ := 7/10

/-- Embedding of the result construction in `analyzeText`
(`HarassmentDetectionDemo.tsx` lines 69–97): each simulated score is
clamped with `Math.min(·, 1)`; `isFlagged` is true when any of the three
axes reaches the shared threshold 0.7; `is_harassment` compares only the
harassment score and `is_toxic` compares only the toxicity score. -/
def buildPlatformResult (platform : String) (text : List Char) (s : SimScores) :
    PlatformResult :=
  let h := min s.harassment_score 1
  let m := min s.misogyny_score 1
  let t := min s.toxicity_score 1
  { platform := platform
    text := text
    result :=
      { harassment_score := h
        misogyny_score := m
        toxicity_score := t
        is_harassment := decide (h ≥ demoThreshold)
        is_toxic := decide (t ≥ demoThreshold) }
    isFlagged := decide (h ≥ demoThreshold) || decide (m ≥ demoThreshold)
      || decide (t ≥ demoThreshold) }

/-- C3 counterexample: with simulated scores harassment = 0.9,
misogyny = 0, toxicity = 0, the harassment axis is at or above its
threshold, yet the stored `is_toxic` is false — so `is_toxic` is NOT
"some axis's confidence reached that axis's threshold". -/
theorem is_toxic_axis_claim_false :
    ¬ (((buildPlatformResult "twitter" [] ⟨9/10, 0, 0⟩).result.is_toxic = true) ↔
      ((buildPlatformResult "twitter" [] ⟨9/10, 0, 0⟩).result.harassment_score
          ≥ demoThreshold ∨
        (buildPlatformResult "twitter" [] ⟨9/10, 0, 0⟩).result.misogyny_score
          ≥ demoThreshold)) := by
  intro hiff
  have h9 : ((9:ℚ)/10) ≥ demoThreshold := by norm_num [demoThreshold]
  have hmin : min ((9:ℚ)/10) 1 = 9/10 := by norm_num
  have hfalse : (buildPlatformResult "twitter" [] ⟨9/10, 0, 0⟩).result.is_toxic
      = false := by
    simp only [buildPlatformResult]
    norm_num [demoThreshold]
  have : (buildPlatformResult "twitter" [] ⟨9/10, 0, 0⟩).result.is_toxic = true := by
    apply hiff.mpr
    left
    show (buildPlatformResult "twitter" [] ⟨9/10, 0, 0⟩).result.harassment_score
        ≥ demoThreshold
    simp only [buildPlatformResult]
    norm_num [demoThreshold]
  rw [hfalse] at this
  exact Bool.false_ne_true this

/-- C3 amended: in `analyzeText`, `is_toxic` is true iff the clamped
toxicity score alone reaches the shared threshold 0.7; `is_harassment`
tracks the harassment axis; the "at least one axis at or above the
threshold" disjunction is exactly the separate `isFlagged` field, over
the three simulated axes. -/
theorem is_toxic_follows_toxicity_axis (platform : String) (text : List Char)
    (s : SimScores) :
    ((buildPlatformResult platform text s).result.is_toxic = true ↔
      min s.toxicity_score 1 ≥ demoThreshold) ∧
    ((buildPlatformResult platform text s).result.is_harassment = true ↔
      min s.harassment_score 1 ≥ demoThreshold) ∧
    ((buildPlatformResult platform text s).isFlagged = true ↔
      (min s.harassment_score 1 ≥ demoThreshold ∨
        min s.misogyny_score 1 ≥ demoThreshold ∨
        min s.toxicity_score 1 ≥ demoThreshold)) := by
  simp [buildPlatformResult, or_assoc]

/-- C8: the analysis pipeline is deterministic — with identical inputs
(identical texts and identical classifier confidences / simulated model
state) both `calculateOverallRisk` and the demo's result construction
yield identical results: equal scores, equal risk level, equal records. -/
theorem analysis_deterministic (h₁ m₁ h₂ m₂ : ℚ) (p₁ p₂ : String)
    (t₁ t₂ : List Char) (s₁ s₂ : SimScores)
    (hh : h₁ = h₂) (hm : m₁ = m₂) (hp : p₁ = p₂) (ht : t₁ = t₂) (hs : s₁ = s₂) :
    calculateOverallRisk h₁ m₁ = calculateOverallRisk h₂ m₂ ∧
    (calculateOverallRisk h₁ m₁).score = (calculateOverallRisk h₂ m₂).score ∧
    (calculateOverallRisk h₁ m₁).level = (calculateOverallRisk h₂ m₂).level ∧
    buildPlatformResult p₁ t₁ s₁ = buildPlatformResult p₂ t₂ s₂ := by
  subst hh; subst hm; subst hp; subst ht; subst hs
  exact ⟨rfl, rfl, rfl, rfl⟩

/-- Witness for C8: two calls with the same concrete inputs agree. -/
theorem analysis_deterministic_witness :
    calculateOverallRisk (1/2) (1/3) = calculateOverallRisk (1/2) (1/3) ∧
    (calculateOverallRisk (1/2) (1/3)).score = (calculateOverallRisk (1/2) (1/3)).score ∧
    (calculateOverallRisk (1/2) (1/3)).level = (calculateOverallRisk (1/2) (1/3)).level ∧
    buildPlatformResult "twitter" ['a'] ⟨1, 0, 0⟩ =
      buildPlatformResult "twitter" ['a'] ⟨1, 0, 0⟩ :=
  analysis_deterministic (1/2) (1/3) (1/2) (1/3) "twitter" "twitter"
    ['a'] ['a'] ⟨1, 0, 0⟩ ⟨1, 0, 0⟩ rfl rfl rfl rfl rfl

/-- Per-item flags of an `AnalyzeTextResponse` that `getJobStats` reads
in its fallback branch. -/
structure ItemFlags where
  is_harassment : Bool
  is_toxic : Bool
deriving DecidableEq, Repr

/-- Backend `BatchAnalysisStats` fields read by `getJobStats`;
`harassment_percentage` is optional there (`?.` access in the code). -/
structure BackendStats where
  total_comments : ℕ
  toxic_comments : ℕ
  harassment_count : ℕ
  harassment_percentage : Option ℚ
deriving DecidableEq, Repr

/-- Rounding to one decimal place, as JS `toFixed(1)` on a finite
non-negative value. -/
def roundTo1 (x : ℚ) : ℚ := (round (x * 10) : ℤ) / 10

/-- The summary record that `getJobStats` returns (`safe` can go negative
in JS, hence ℤ); `toxicPercentage` is `none` when JS would display the
`NaN` produced by `0 / 0`. -/
structure JobStatsView where
  total : ℕ
  toxic : ℕ
  safe : ℤ
  toxicPercentage : Option ℚ
deriving DecidableEq, Repr

/-- Embedding of `getJobStats` from `src/unnamed/part_001` lines 221–248.
JS quirks modelled explicitly: `stats.harassment_count ||
stats.toxic_comments || 0` falls through on 0 (JS falsiness);
`stats.harassment_percentage?.toFixed(1) || '0.0'` uses the `'0.0'`
default only when the field is absent (the string "0.0" is itself
truthy); in the fallback branch `(harassmentCount / totalCount) * 100`
is JS `NaN` when `totalCount = 0` (`0 / 0`), modelled as `none`. -/
def getJobStats (statistics : Option BackendStats)
    (results : Option (List ItemFlags)) : Option JobStatsView :=
  match statistics with
  | some stats =>
      some { total := stats.total_comments
             toxic := if stats.harassment_count ≠ 0 then stats.harassment_count
               else stats.toxic_comments
             safe := (stats.total_comments : ℤ) - stats.harassment_count
             toxicPercentage :=
               some (roundTo1 (stats.harassment_percentage.getD 0)) }
  | none =>
    match results with
    | none => none
    | some rs =>
        let harassmentCount :=
          (rs.filter (fun i => i.is_harassment || i.is_toxic)).length
        let totalCount := rs.length
        some { total := totalCount
               toxic := harassmentCount
               safe := (totalCount : ℤ) - harassmentCount
               toxicPercentage :=
                 if totalCount = 0 then none
                 else some (roundTo1 ((harassmentCount : ℚ) / totalCount * 100)) }

/-- Per-item scores of an `AnalyzeTextResponse` that `getOverallStats`
reads in `BatchAnalysisDemo.tsx`. -/
structure BatchItemScores where
  is_toxic : Bool
  harassment : ℚ
  misogyny : ℚ
deriving DecidableEq, Repr

/-- Rounding to three decimal places, as JS `toFixed(3)`. -/
def roundTo3 (x : ℚ) : ℚ := (round (x * 1000) : ℤ) / 1000

/-- The summary record that `getOverallStats` returns. -/
structure OverallStats where
  total : ℕ
  toxic : ℕ
  safe : ℕ
  avgHarassment : ℚ
  avgMisogyny : ℚ
deriving DecidableEq, Repr

/-- Embedding of `getOverallStats` from
`src/frontend/src/components/BatchAnalysisDemo.tsx` lines 136–150: the
empty result list short-circuits to `null` before any division; otherwise
counts and `toFixed(3)`-rounded averages over the items. -/
def getOverallStats (results : List BatchItemScores) : Option OverallStats :=
  if results.length = 0 then none
  else
    let toxicCount := (results.filter (fun r => r.is_toxic)).length
    some { total := results.length
           toxic := toxicCount
           safe := results.length - toxicCount
           avgHarassment :=
             roundTo3 ((results.map (fun r => r.harassment)).sum / results.length)
           avgMisogyny :=
             roundTo3 ((results.map (fun r => r.misogyny)).sum / results.length) }

/-- C5 counterexample: on a completed job carrying an empty `results`
list and no backend statistics, `getJobStats` takes the fallback branch
and computes `(0 / 0) * 100`, i.e. JS `NaN` (modelled `none`) — the
percentage is not the claimed 0.0. -/
theorem percentage_divzero_counterexample :
    (getJobStats none (some [])).map JobStatsView.toxicPercentage = some none ∧
    (getJobStats none (some [])).map JobStatsView.toxicPercentage ≠
      some (some (0 : ℚ)) := by
  constructor
  · rfl
  · intro h
    simp [getJobStats] at h

/-- C5 amended: for a non-empty results collection the fallback
percentage is `count / total * 100` rounded to one decimal place, but for
`total_comments = 0` the code does divide by zero: the fallback branch
yields JS `NaN` on an empty results list, and `getOverallStats` avoids
the division only by returning `null` (not all-zero statistics) for the
empty collection. -/
theorem percentage_formula_amended (rs : List ItemFlags) (hne : rs ≠ []) :
    (getJobStats none (some rs)).map JobStatsView.toxicPercentage =
      some (some (roundTo1
        (((rs.filter (fun i => i.is_harassment || i.is_toxic)).length : ℚ)
          / rs.length * 100))) ∧
    getOverallStats [] = none ∧
    (getJobStats none (some [])).map JobStatsView.toxicPercentage = some none := by
  refine ⟨?_, rfl, rfl⟩
  have hlen : rs.length ≠ 0 := by
    simpa using hne
  simp [getJobStats, hlen]

/-- Witness for the amended C5 on the one-item collection whose single
item is flagged: the percentage is 100.0. -/
theorem percentage_formula_amended_witness :
    (getJobStats none (some [⟨true, true⟩])).map JobStatsView.toxicPercentage =
      some (some (roundTo1
        (((([⟨true, true⟩] : List ItemFlags).filter
            (fun i => i.is_harassment || i.is_toxic)).length : ℚ)
          / ([⟨true, true⟩] : List ItemFlags).length * 100))) :=
  (percentage_formula_amended [⟨true, true⟩] (by simp)).1

/-- Job status values of the polling workflow
(`'queued' | 'processing' | 'completed' | 'failed'`). -/
inductive JobStatus where
  | queued
  | processing
  | completed
  | failed
deriving DecidableEq, Repr

/-- Terminal statuses: the `status === 'completed' || status === 'failed'`
test in `startPolling`. -/
def isTerminal : JobStatus → Bool
  | JobStatus.completed => true
  | JobStatus.failed => true
  | _ => false

/-- Constant `UI_CONFIG.POLLING_INTERVAL` from `src/unnamed/part_003`
line 489. -/
def UI_CONFIG_POLLING_INTERVAL : ℕ := 2000

/-- The literal interval (ms) passed to `setInterval` in `startPolling`
(`src/unnamed/part_001` line 144). -/
def startPollingIntervalMs : ℕ := 2000

/-- Embedding of the polling loop of `startPolling`
(`src/unnamed/part_001` lines 107–145).  Each tick issues one `getStatus`
request; a response with a terminal status, or a fetch error (`none`),
runs `clearInterval`, so no later tick fires.  Given the sequence of
responses the server would return on successive ticks, `pollRequests`
lists the responses of the requests actually issued. -/
def pollRequests : List (Option JobStatus) → List (Option JobStatus)
  | [] => []
  | none :: _ => [none]
  | some s :: rest =>
      if isTerminal s then [some s] else some s :: pollRequests rest

/-- C7: the poll interval is the recommended 2000 ms, and once a terminal
status (completed or failed) is observed at position i of the request
trace, that request is the last one — no further `getStatus` request is
ever issued for the job. -/
theorem polling_stops_at_terminal (rs : List (Option JobStatus)) (i : ℕ)
    (s : JobStatus) (hobs : (pollRequests rs).get? i = some (some s))
    (hterm : isTerminal s = true) :
    (pollRequests rs).length = i + 1 ∧
    startPollingIntervalMs = 2000 ∧ UI_CONFIG_POLLING_INTERVAL = 2000 := by
  refine ⟨?_, rfl, rfl⟩
  induction rs generalizing i with
  | nil => simp [pollRequests] at hobs
  | cons r rest ih =>
    match r with
    | none =>
      have hpoll : pollRequests (none :: rest) = [none] := rfl
      rw [hpoll] at hobs
      match i, hobs with
      | 0, hobs => simp at hobs
      | n + 1, hobs => simp at hobs
    | some s0 =>
      by_cases ht : isTerminal s0 = true
      · have hpoll : pollRequests (some s0 :: rest) = [some s0] := by
          simp [pollRequests, ht]
        rw [hpoll] at hobs ⊢
        match i, hobs with
        | 0, _ => rfl
        | n + 1, hobs => simp at hobs
      · have hpoll : pollRequests (some s0 :: rest) = some s0 :: pollRequests rest := by
          simp [pollRequests, ht]
        rw [hpoll] at hobs ⊢
        match i, hobs with
        | 0, hobs =>
          exfalso
          have hss : s0 = s := by simpa using hobs
          rw [hss] at ht
          exact ht hterm
        | n + 1, hobs =>
          have h2 := ih n (by simpa using hobs)
          simp [List.length_cons, h2]

/-- Witness for C7: with responses (processing, completed, completed) the
client issues exactly two requests, the last observing the terminal
status. -/
theorem polling_stops_at_terminal_witness :
    (pollRequests [some JobStatus.processing, some JobStatus.completed,
      some JobStatus.completed]).length = 1 + 1 ∧
    startPollingIntervalMs = 2000 ∧ UI_CONFIG_POLLING_INTERVAL = 2000 :=
  polling_stops_at_terminal
    [some JobStatus.processing, some JobStatus.completed, some JobStatus.completed]
    1 JobStatus.completed (by rfl) (by rfl)

/-- One element of `exportData` in `exportResults`
(`BatchAnalysisDemo.tsx` lines 108–134): the six exported columns.  The
two score columns are carried as their JS number rendering (that
rendering is irrelevant to the escaping question). -/
structure ExportItem where
  text : List Char
  riskLevel : List Char
  is_toxic : Bool
  harassment_score_str : List Char
  misogyny_score_str : List Char
  flagged_categories : List (List Char)
deriving DecidableEq, Repr

/-- JS boolean-to-string coercion used by the template literal. -/
def boolToStr : Bool → List Char
  | true => ['t', 'r', 'u', 'e']
  | false => ['f', 'a', 'l', 's', 'e']

/-- The template literal wraps every field in double quotes verbatim —
no escaping of embedded quotes. -/
def quoteWrap (s : List Char) : List Char := '"' :: (s ++ ['"'])

/-- Embedding of a data row of the CSV built by `exportResults`:
`"${text}","${risk_level}","${is_toxic}","${harassment_score}","${misogyny_score}","${flagged_categories}"`
with `flagged_categories` comma-joined (`join(', ')`). -/
def exportRowLine (r : ExportItem) : List Char :=
  quoteWrap r.text ++ [','] ++ quoteWrap r.riskLevel ++ [','] ++
    quoteWrap (boolToStr r.is_toxic) ++ [','] ++
    quoteWrap r.harassment_score_str ++ [','] ++
    quoteWrap r.misogyny_score_str ++ [','] ++
    quoteWrap (List.intercalate [',', ' '] r.flagged_categories)

/-- The header line of the exported CSV. -/
def exportHeader : List Char :=
  ('T' :: 'e' :: 'x' :: 't' :: ',' :: 'R' :: 'i' :: 's' :: 'k' :: ' ' ::
    'L' :: 'e' :: 'v' :: 'e' :: 'l' :: ',' :: 'I' :: 's' :: ' ' :: 'T' ::
    'o' :: 'x' :: 'i' :: 'c' :: [])
  ++ (',' :: 'H' :: 'a' :: 'r' :: 'a' :: 's' :: 's' :: 'm' :: 'e' :: 'n' ::
    't' :: ' ' :: 'S' :: 'c' :: 'o' :: 'r' :: 'e' :: [])
  ++ (',' :: 'M' :: 'i' :: 's' :: 'o' :: 'g' :: 'y' :: 'n' :: 'y' :: ' ' ::
    'S' :: 'c' :: 'o' :: 'r' :: 'e' :: [])
  ++ (',' :: 'F' :: 'l' :: 'a' :: 'g' :: 'g' :: 'e' :: 'd' :: ' ' :: 'C' ::
    'a' :: 't' :: 'e' :: 'g' :: 'o' :: 'r' :: 'i' :: 'e' :: 's' :: [])

/-- Embedding of `exportResults`: the header line followed by one line
per result (the source joins these lines with a newline before
download). -/
def exportResults (results : List ExportItem) : List (List Char) :=
  exportHeader :: results.map exportRowLine

/-- Standard CSV (RFC 4180) reading of one double-quoted field, used to
state the round-trip property the spec requires of the text column: a
quoted field ends at a `"` not doubled; a doubled `""` denotes one
literal quote character.  Returns the field value and the rest of the
line. -/
def readQuotedFieldAux (acc : List Char) : List Char → Option (List Char × List Char)
  | [] => none
  | '"' :: '"' :: rest => readQuotedFieldAux (acc ++ ['"']) rest
  | '"' :: rest => some (acc, rest)
  | c :: rest => readQuotedFieldAux (acc ++ [c]) rest

/-- Standard CSV reading of a field that starts with a double quote. -/
def readQuotedField : List Char → Option (List Char × List Char)
  | '"' :: rest => readQuotedFieldAux [] rest
  | _ => none

/-- C6: evaluation at the failing input.  For the item whose text is
`a"b` the exported row is emitted with the raw quote embedded, so
standard CSV reading of the text column returns `a` — the free-form text
does not round-trip (the code wraps fields in quotes but never escapes
embedded quote characters, contradicting the spec's escaping
requirement). -/
theorem export_quote_not_escaped :
    (readQuotedField (exportRowLine
        ⟨['a', '"', 'b'], ['l', 'o', 'w'], false, ['0'], ['0'], []⟩)).map
        Prod.fst = some ['a'] ∧
    (['a'] : List Char) ≠ ['a', '"', 'b'] ∧
    exportResults [⟨['a', '"', 'b'], ['l', 'o', 'w'], false, ['0'], ['0'], []⟩] =
      [exportHeader,
        exportRowLine ⟨['a', '"', 'b'], ['l', 'o', 'w'], false, ['0'], ['0'], []⟩] := by
  refine ⟨by rfl, by decide, by rfl⟩

/-- Apostrophe character (used inside the sample texts). -/
def apos : Char := Char.ofNat 39

/-- The five sample texts installed by `loadSampleData`
(`BatchAnalysisDemo.tsx` lines 92–100). -/
def sampleTexts : List (List Char) :=
  [("This is a normal, friendly comment.").data,
   ("You").data ++ [apos] ++ ("re such an idiot, you should just disappear.").data,
   ("Great work on this project!").data,
   ("Women don").data ++ [apos] ++ ("t belong in tech, go back to the kitchen.").data,
   ("I love this community, everyone is so helpful.").data]

/-- Actions of `BatchAnalysisDemo` that touch the `texts` state:
`addTextBox`, `removeTextBox`, `updateText`, `clearAll`,
`loadSampleData` (`handleBatchAnalysis` never modifies `texts`). -/
inductive BatchAction where
  | add
  | remove (i : ℕ)
  | update (i : ℕ) (v : List Char)
  | clear
  | loadSamples

/-- Initial `texts` state: `useState([''])`. -/
def initialTexts : List (List Char) := [[]]

/-- One state transition of the `texts` list, embedded from
`BatchAnalysisDemo.tsx`: `addTextBox` appends an empty box only while
`length < 10`; `removeTextBox` filters out index i only while
`length > 1`; `updateText` replaces in place; `clearAll` resets to
`[''] `; `loadSampleData` installs the five samples. -/
def stepTexts (ts : List (List Char)) : BatchAction → List (List Char)
  | BatchAction.add => if ts.length < 10 then ts ++ [[]] else ts
  | BatchAction.remove i => if 1 < ts.length then ts.eraseIdx i else ts
  | BatchAction.update i v => ts.set i v
  | BatchAction.clear => [[]]
  | BatchAction.loadSamples => sampleTexts

/-- Length bounds of `List.eraseIdx`: it removes at most one element. -/
theorem eraseIdx_length_bounds {α : Type} (l : List α) (i : ℕ) :
    l.length - 1 ≤ (l.eraseIdx i).length ∧ (l.eraseIdx i).length ≤ l.length := by
  induction l generalizing i with
  | nil => simp [List.eraseIdx]
  | cons a as ih =>
    cases i with
    | zero => simp [List.eraseIdx]
    | succ n =>
      have hb := ih n
      simp only [List.eraseIdx, List.length_cons]
      omega

/-- Every single action preserves the 1..10 bound on the box count. -/
theorem stepTexts_length_bounds (ts : List (List Char)) (a : BatchAction)
    (h1 : 1 ≤ ts.length) (h10 : ts.length ≤ 10) :
    1 ≤ (stepTexts ts a).length ∧ (stepTexts ts a).length ≤ 10 := by
  cases a with
  | add =>
    simp only [stepTexts]
    split_ifs with hlt
    · simp only [List.length_append, List.length_cons, List.length_nil]
      omega
    · exact ⟨h1, h10⟩
  | remove i =>
    simp only [stepTexts]
    split_ifs with hgt
    · have hb := eraseIdx_length_bounds ts i
      omega
    · exact ⟨h1, h10⟩
  | update i v =>
    simp only [stepTexts, List.length_set]
    exact ⟨h1, h10⟩
  | clear =>
    norm_num [stepTexts]
  | loadSamples =>
    norm_num [stepTexts, sampleTexts]

/-- C9: every state of the batch-input `texts` list reachable from the
initial state `['']` through any sequence of component actions keeps
between 1 and 10 text boxes. -/
theorem texts_count_invariant (acts : List BatchAction) :
    1 ≤ (acts.foldl stepTexts initialTexts).length ∧
    (acts.foldl stepTexts initialTexts).length ≤ 10 := by
  suffices h : ∀ (ts : List (List Char)), 1 ≤ ts.length → ts.length ≤ 10 →
      1 ≤ (acts.foldl stepTexts ts).length ∧ (acts.foldl stepTexts ts).length ≤ 10 by
    exact h initialTexts (by norm_num [initialTexts]) (by norm_num [initialTexts])
  induction acts with
  | nil =>
    intro ts h1 h10
    exact ⟨h1, h10⟩
  | cons a rest ih =>
    intro ts h1 h10
    simp only [List.foldl_cons]
    have hb := stepTexts_length_bounds ts a h1 h10
    exact ih (stepTexts ts a) hb.1 hb.2

/-- A selected file as `handleFileSelect` sees it: its name and its size
in bytes. -/
structure JsFile where
  name : List Char
  size : ℕ
deriving DecidableEq, Repr

/-- The component state that `handleFileSelect` updates: the accepted
file (if any) and the error banner (if any). -/
structure UploadState where
  file : Option JsFile
  error : Option String
deriving DecidableEq, Repr

/-- JS `name.split('.')` specialised to the dot separator
(splitting never yields an empty list). -/
def splitOnDotAux (cur : List Char) : List Char → List (List Char)
  | [] => [cur.reverse]
  | c :: rest =>
      if c = '.' then cur.reverse :: splitOnDotAux [] rest
      else splitOnDotAux (c :: cur) rest

/-- JS `name.split('.')`. -/
def splitOnDot (s : List Char) : List (List Char) := splitOnDotAux [] s

/-- JS `.toLowerCase()` (ASCII, which covers the extension letters). -/
def jsLower (s : List Char) : List Char := s.map Char.toLower

/-- Constant `SECURITY_CONFIG.MAX_FILE_SIZE` from `src/unnamed/part_003`
line 468 (10 MB); `handleFileSelect` repeats the same literal inline. -/
def MAX_FILE_SIZE : ℕ := 10 * 1024 * 1024

/-- The local `allowedTypes` list of `handleFileSelect`
(`src/unnamed/part_001` line 30): only `.txt` and `.csv`. -/
def allowedTypes : List (List Char) := [['.', 't', 'x', 't'], ['.', 'c', 's', 'v']]

/-- The `fileExtension` computed by `handleFileSelect`:
`'.' + name.split('.').pop()?.toLowerCase()`. -/
def fileExtensionOf (name : List Char) : List Char :=
  '.' :: jsLower ((splitOnDot name).getLast?.getD [])

/-- Embedding of `handleFileSelect` from `src/unnamed/part_001` lines
26–47: reject (setting only the error) when the lower-cased extension is
not in `allowedTypes`, then when the size exceeds 10 MB; otherwise store
the file and clear the error. -/
def handleFileSelect (st : UploadState) (f : JsFile) : UploadState :=
  if ¬ (fileExtensionOf f.name ∈ allowedTypes) then
    { st with error := some "Please select a .txt or .csv file" }
  else if f.size > 10 * 1024 * 1024 then
    { st with error := some "File size must be less than 10MB" }
  else
    { file := some f, error := none }

/-- C10: `handleFileSelect` accepts exactly the files whose
case-insensitive extension is `.txt` or `.csv` and whose size is at most
10 MB (10·1024·1024 bytes); an accepted file is stored with the error
cleared, while any violating file leaves the previously selected file
unchanged and sets an error message. -/
theorem file_select_accepts_txt_csv (st : UploadState) (f : JsFile) :
    ((fileExtensionOf f.name ∈ allowedTypes ∧ f.size ≤ 10 * 1024 * 1024) →
      handleFileSelect st f = { file := some f, error := none }) ∧
    ((fileExtensionOf f.name ∉ allowedTypes ∨ 10 * 1024 * 1024 < f.size) →
      (handleFileSelect st f).file = st.file ∧
      ∃ msg, (handleFileSelect st f).error = some msg) ∧
    MAX_FILE_SIZE = 10 * 1024 * 1024 := by
  refine ⟨?_, ?_, rfl⟩
  · rintro ⟨hmem, hsize⟩
    unfold handleFileSelect
    rw [if_neg (not_not_intro hmem), if_neg (by omega)]
  · intro hbad
    by_cases hmem : fileExtensionOf f.name ∈ allowedTypes
    · have hsz : 10 * 1024 * 1024 < f.size := by
        rcases hbad with h1 | h2
        · exact absurd hmem h1
        · exact h2
      unfold handleFileSelect
      rw [if_neg (not_not_intro hmem), if_pos hsz]
      exact ⟨rfl, ⟨_, rfl⟩⟩
    · unfold handleFileSelect
      rw [if_pos hmem]
      exact ⟨rfl, ⟨_, rfl⟩⟩

/-- Witness for C10: a 100-byte file named `data.TXT` (upper-case
extension) is accepted, stored, and the error is cleared. -/
theorem file_select_accepts_txt_csv_witness :
    handleFileSelect ⟨none, none⟩ ⟨['d', 'a', 't', 'a', '.', 'T', 'X', 'T'], 100⟩ =
      { file := some ⟨['d', 'a', 't', 'a', '.', 'T', 'X', 'T'], 100⟩,
        error := none } :=
  (file_select_accepts_txt_csv ⟨none, none⟩
    ⟨['d', 'a', 't', 'a', '.', 'T', 'X', 'T'], 100⟩).1 ⟨by decide, by decide⟩
